import Mathlib

/-!
Shallow embedding of py532lib/i2c.py (class Pn532_i2c): the PN532 NFC
communication state machine — command sending with unbounded retry and bus
reset, SIGALRM-based response polling with auto-acknowledgement of DATA
frames, the ACK handshake, and the passive-target read.

Modelling choices:
* The I2C bus and the frame codec (py532lib/frame.py, an external
  collaborator per the spec) are abstracted by a script: each bus read
  transaction yields either a transport fault, bytes that the codec rejects,
  or bytes that decode to a given frame; each bus write transaction either
  succeeds or faults.
* The SIGALRM timeout machinery (signal.alarm / timeout_handler raising
  TimeoutException) is modelled by a logical clock: every blocking primitive
  (sleep, bus read, bus write, I2C reset) consumes a wall-time duration from
  a script (default 1 time unit), and an armed alarm whose fire time has been
  reached interrupts the next blocking primitive by raising the timeout
  exception, exactly once (the signal is consumed).  signal.alarm(0) disarms
  any pending alarm, as in POSIX.
* Unbounded while-True loops take a fuel parameter; exhausting fuel is a
  distinguished outcome (the run was cut short, which no theorem counts as a
  normal return).
* Ghost fields (read/write/reset counters, a log of send_command invocations,
  poll-call counters) record events without influencing control flow.
-/

namespace Py532

/-- Frame type tags: PN532_FRAME_TYPE_DATA, PN532_FRAME_TYPE_ACK; `other`
stands for the remaining tags (NACK, ERROR) which the i2c layer only ever
compares against DATA and ACK. -/
inductive FrameType where
  | data
  | ack
  | other
deriving DecidableEq, Repr

/-- Modelled from the spec: Pn532Frame (py532lib/frame.py is outside src/).
Per the spec's data model only the type tag and the payload are visible to
the communication core. -/
structure Pn532Frame where
  frame_type : FrameType
  data : List Nat := []
deriving DecidableEq, Repr

/-- Python frame.get_frame_type() on a genuine frame object. -/
def Pn532Frame.get_frame_type (f : Pn532Frame) : FrameType := f.frame_type

/-- Outcome of one bus read transaction together with the codec's verdict on
the returned bytes: `rfault` = the transaction itself raised; `rbytes none` =
bytes that Pn532Frame.from_response rejects (decode error); `rbytes (some f)`
= bytes that decode to frame f.  Modelled from the spec: the decode step
(Frame Codec) is an external collaborator. -/
inductive RdEv where
  | rfault
  | rbytes (d : Option Pn532Frame)
deriving DecidableEq, Repr

/-- Exceptions that flow through the i2c layer: TimeoutException (raised by
the SIGALRM handler), AttributeError (calling get_frame_type on the string
sentinel), and any other exception (transport/decode faults). -/
inductive Exn where
  | timeoutExc
  | attrError
  | generic
deriving DecidableEq, Repr

/-- World state threaded through the embedded program: logical clock, the
pending SIGALRM (absolute fire time), the bus scripts, and ghost counters. -/
structure St where
  clock : Nat
  alarm : Option Nat
  reads : List RdEv
  writes : List Bool
  durs : List Nat
  nReads : Nat := 0
  nWrites : Nat := 0
  nResets : Nat := 0
  sendLog : List FrameType := []
  pollCalls : Nat := 0
  pollsWhileArmed : Nat := 0
deriving DecidableEq, Repr

/-- Result of running an embedded operation: normal return, uncaught Python
exception, or fuel exhaustion (the source loop would still be running). -/
inductive Res (α : Type) where
  | ok (a : α) (s : St)
  | exn (e : Exn) (s : St)
  | nofuel (s : St)
deriving DecidableEq, Repr

/-- Final state of a run, whatever the outcome. -/
def Res.st {α : Type} : Res α → St
  | .ok _ s => s
  | .exn _ s => s
  | .nofuel s => s

/-- Exception carried by the outcome, if any. -/
def Res.exnOf {α : Type} : Res α → Option Exn
  | .exn e _ => some e
  | _ => none

/-- Is the pending alarm due (signal.alarm fire time reached)? -/
def fireDue (s : St) : Bool :=
  match s.alarm with
  | some t => decide (t ≤ s.clock)
  | none => false

/-- Wall time passes across one blocking primitive: the clock advances by the
next scripted duration (default 1). -/
def passTime (s : St) : St :=
  match s.durs with
  | [] => { s with clock := s.clock + 1 }
  | d :: rest => { s with clock := s.clock + d, durs := rest }

/-- signal.alarm(n): n = 0 disarms any pending alarm, otherwise the alarm is
(re)armed to fire n seconds from now. -/
def setAlarm (n : Nat) (s : St) : St :=
  if n = 0 then { s with alarm := none } else { s with alarm := some (s.clock + n) }

/-- sleep(DEFAULT_DELAY): a blocking point; a due SIGALRM interrupts it with
TimeoutException (consuming the signal), otherwise time passes. -/
def primSleep (s : St) : Except Exn Unit × St :=
  if fireDue s then (.error .timeoutExc, { s with alarm := none })
  else (.ok (), passTime s)

/-- One bus read transaction followed by the codec's verdict on the bytes
(self.PN532.transaction(reading(...)) / read_i2c_block_data): a due SIGALRM
interrupts it; otherwise the next scripted read event is consumed (an
exhausted script reads as a transport fault). -/
def primRead (s : St) : Except Exn (Option Pn532Frame) × St :=
  if fireDue s then (.error .timeoutExc, { s with alarm := none })
  else
    let s1 := { passTime s with nReads := (passTime s).nReads + 1 }
    match s1.reads with
    | [] => (.error .generic, s1)
    | .rfault :: rest => (.error .generic, { s1 with reads := rest })
    | .rbytes d :: rest => (.ok d, { s1 with reads := rest })

/-- One bus write transaction (self.PN532.transaction(writing(...)) /
write_i2c_block_data): a due SIGALRM interrupts it; otherwise the next
scripted write outcome is consumed (an exhausted script writes as a
transport fault). -/
def primWrite (s : St) : Except Exn Unit × St :=
  if fireDue s then (.error .timeoutExc, { s with alarm := none })
  else
    let s1 := { passTime s with nWrites := (passTime s).nWrites + 1 }
    match s1.writes with
    | [] => (.error .generic, s1)
    | okw :: rest =>
      (if okw then .ok () else .error .generic, { s1 with writes := rest })

/-- reset_i2c (i2c.py lines 202-214): close the handle and reacquire a fresh
one on the same channel; a blocking point, so a due SIGALRM interrupts it. -/
def reset_i2c (s : St) : Except Exn Unit × St :=
  if fireDue s then (.error .timeoutExc, { s with alarm := none })
  else (.ok (), { passTime s with nResets := (passTime s).nResets + 1 })

/-- Loop body of send_command (i2c.py lines 141-168): try { sleep; serialize;
bus write } → return True; on any exception (`except Exception`) the handler
runs reset_i2c() then sleep and the loop retries; an exception raised inside
the handler itself propagates. -/
def sc_loop (frame : Pn532Frame) : Nat → St → Res Bool
  | 0, s => .nofuel s
  | fuel + 1, s =>
    match primSleep s with
    | (.ok _, s1) =>
      match primWrite s1 with
      | (.ok _, s2) => .ok true s2
      | (.error _, s2) =>
        match reset_i2c s2 with
        | (.error e, s3) => .exn e s3
        | (.ok _, s3) =>
          match primSleep s3 with
          | (.error e, s4) => .exn e s4
          | (.ok _, s4) => sc_loop frame fuel s4
    | (.error _, s1) =>
      match reset_i2c s1 with
      | (.error e, s2) => .exn e s2
      | (.ok _, s2) =>
        match primSleep s2 with
        | (.error e, s3) => .exn e s3
        | (.ok _, s3) => sc_loop frame fuel s3

/-- send_command (i2c.py lines 132-168); the ghost sendLog records the
invocation (one entry per call, however many write attempts follow). -/
def send_command (frame : Pn532Frame) (fuel : Nat) (s : St) : Res Bool :=
  sc_loop frame fuel { s with sendLog := s.sendLog ++ [frame.frame_type] }

/-- Value returned by read_response: a decoded frame, or the Python string
constant (the literal text is the phrase no-nfc-tag-in-range) returned on
TimeoutException. -/
inductive RRVal where
  | frame (f : Pn532Frame)
  | noTagStr
deriving DecidableEq, Repr

/-- Loop body of read_response (i2c.py lines 91-128).  Inner try: sleep then
bus read — TimeoutException returns the sentinel string, any other exception
is swallowed (`pass`) and the loop continues.  On read success: decode via
Pn532Frame.from_response; if the frame is DATA, auto-acknowledge it by
send_command of a bare ACK frame; a TimeoutException out of this block
returns the sentinel, any other exception is swallowed; on success
signal.alarm(0) disarms the alarm and the frame is returned. -/
def rr_loop : Nat → St → Res RRVal
  | 0, s => .nofuel s
  | fuel + 1, s =>
    match primSleep s with
    | (.error .timeoutExc, s1) => .ok .noTagStr s1
    | (.error _, s1) => rr_loop fuel s1
    | (.ok _, s1) =>
      match primRead s1 with
      | (.error .timeoutExc, s2) => .ok .noTagStr s2
      | (.error _, s2) => rr_loop fuel s2
      | (.ok dec, s2) =>
        match dec with
        | none => rr_loop fuel s2
        | some frame =>
          if frame.get_frame_type = FrameType.data then
            match send_command (Pn532Frame.mk FrameType.ack []) fuel s2 with
            | .nofuel s3 => .nofuel s3
            | .exn .timeoutExc s3 => .ok .noTagStr s3
            | .exn _ s3 => rr_loop fuel s3
            | .ok _ s3 => .ok (.frame frame) (setAlarm 0 s3)
          else .ok (.frame frame) (setAlarm 0 s2)

/-- read_response (i2c.py lines 83-130): installs the SIGALRM handler, arms
signal.alarm(timeout) and runs the polling loop.  The outer
`except TimeoutException` and the handler-restoring `finally` are part of the
source; in this model no exception escapes the loop, so they have no separate
effect.  Ghost fields count the invocation and whether an alarm armed by an
outer scope was still pending at entry. -/
def read_response (timeout : Nat) (fuel : Nat) (s : St) : Res RRVal :=
  let s0 := { s with
    pollCalls := s.pollCalls + 1,
    pollsWhileArmed := s.pollsWhileArmed + (if s.alarm.isSome then 1 else 0) }
  rr_loop fuel (setAlarm timeout s0)

/-- Value returned by read_ack: Python True, or the same sentinel string
(returned from read_ack's own `except TimeoutException`). -/
inductive RAVal where
  | ackTrue
  | noTag
deriving DecidableEq, Repr

/-- Default timeout of read_response (i2c.py line 83): read_ack's loop calls
self.read_response() with no argument, so this value re-arms the alarm. -/
def DEFAULT_TIMEOUT : Nat := 3600

/-- Loop body of read_ack (i2c.py lines 181-189): sleep, then a full
read_response() call (note: with the DEFAULT timeout, not read_ack's own),
then response_frame.get_frame_type() — which on the string sentinel raises
AttributeError, caught by nothing in read_ack (its except clause only catches
TimeoutException).  An ACK-typed frame disarms the alarm and returns True;
any other frame type is skipped (`pass`) and the loop continues. -/
def ra_loop : Nat → St → Res RAVal
  | 0, s => .nofuel s
  | fuel + 1, s =>
    match primSleep s with
    | (.error .timeoutExc, s1) => .ok .noTag s1
    | (.error e, s1) => .exn e s1
    | (.ok _, s1) =>
      match read_response DEFAULT_TIMEOUT fuel s1 with
      | .nofuel s2 => .nofuel s2
      | .exn .timeoutExc s2 => .ok .noTag s2
      | .exn e s2 => .exn e s2
      | .ok .noTagStr s2 => .exn .attrError s2
      | .ok (.frame f) s2 =>
        if f.get_frame_type = FrameType.ack then .ok .ackTrue (setAlarm 0 s2)
        else ra_loop fuel s2

/-- read_ack (i2c.py lines 170-193): installs the SIGALRM handler, arms
signal.alarm(timeout) and runs the loop; `except TimeoutException` returns
the sentinel string and `finally` restores the handler. -/
def read_ack (timeout : Nat) (fuel : Nat) (s : St) : Res RAVal :=
  ra_loop fuel (setAlarm timeout s)

/-- Python truthiness of read_ack's possible return values: True is truthy
and so is the (non-empty) sentinel string. -/
def truthy : RAVal → Bool
  | .ackTrue => true
  | .noTag => true

/-- send_command_check_ack (i2c.py lines 70-81): send_command, then
`if self.read_ack(timeout): return True else: return False`. -/
def send_command_check_ack (frame : Pn532Frame) (timeout : Nat) (fuel : Nat)
    (s : St) : Res Bool :=
  match send_command frame fuel s with
  | .nofuel s1 => .nofuel s1
  | .exn e s1 => .exn e s1
  | .ok _ s1 =>
    match read_ack timeout fuel s1 with
    | .nofuel s2 => .nofuel s2
    | .exn e s2 => .exn e s2
    | .ok r s2 => if truthy r then .ok true s2 else .ok false s2

/-- Modelled from the spec: PN532_COMMAND_INLISTPASSIVETARGET (constants.py
is outside src/); the standard InListPassiveTarget command code. -/
def PN532_COMMAND_INLISTPASSIVETARGET : Nat := 0x4A

/-- The fixed list-passive-target command frame built by read_mifare
(i2c.py line 197). -/
def mifareFrame : Pn532Frame :=
  Pn532Frame.mk FrameType.data [PN532_COMMAND_INLISTPASSIVETARGET, 0x01, 0x00]

/-- read_mifare (i2c.py lines 195-200): send_command_check_ack with the fixed
command and the caller's timeout (its result is ignored), then one more
read_response with the same timeout, whose result is returned. -/
def read_mifare (timeout : Nat) (fuel : Nat) (s : St) : Res RRVal :=
  match send_command_check_ack mifareFrame timeout fuel s with
  | .nofuel s1 => .nofuel s1
  | .exn e s1 => .exn e s1
  | .ok _ s1 => read_response timeout fuel s1

/-- Initial world: clock 0, no alarm pending, given bus scripts. -/
def st0 (rs : List RdEv) (ws : List Bool) (ds : List Nat) : St :=
  { clock := 0, alarm := none, reads := rs, writes := ws, durs := ds }

/-- A bare ACK frame as received from the chip. -/
def ackF : Pn532Frame := Pn532Frame.mk FrameType.ack []

/-- A DATA frame with a small payload. -/
def dataF : Pn532Frame := Pn532Frame.mk FrameType.data [1, 2, 3]

/-- Value returned by a run that ended normally. -/
def Res.val {α : Type} : Res α → Option α
  | .ok a _ => some a
  | _ => none

/-- Does the run end with the timeout sentinel string being returned? -/
def Res.isNoTagRes : Res RRVal → Bool
  | .ok .noTagStr _ => true
  | _ => false

/-- Does the run end by returning a decoded frame? -/
def Res.isFrameRes : Res RRVal → Bool
  | .ok (.frame _) _ => true
  | _ => false

/-- Does the run end with Python False? -/
def Res.returnsFalse : Res Bool → Bool
  | .ok false _ => true
  | _ => false

/-- Does the run end by raising a transport fault (a generic exception)? -/
def Res.surfacesFault {α : Type} : Res α → Bool
  | .exn .generic _ => true
  | _ => false

/-- Scripted bus: a single read that decodes to an ACK frame. -/
def sAckOnly : St := st0 [RdEv.rbytes (some ackF)] [] []

/-- Scripted bus: a single read that decodes to a DATA frame; one write slot
for the auto-ACK. -/
def sDataOnly : St := st0 [RdEv.rbytes (some dataF)] [true] []

/-- Scripted bus: a DATA frame first, then an ACK frame; two write slots. -/
def sDataThenAck : St :=
  st0 [RdEv.rbytes (some dataF), RdEv.rbytes (some ackF)] [true, true] []

/-- Scripted bus: an ACK frame first, then a DATA frame; two write slots. -/
def sAckThenData : St :=
  st0 [RdEv.rbytes (some ackF), RdEv.rbytes (some dataF)] [true, true] []

/-- Scripted bus: the first two write transactions fault, the third succeeds. -/
def sFaultyWrites : St := st0 [] [false, false, true] []

/-- Scripted bus: the command write succeeds, then the first poll's bus read
blocks for a long time (5000 time units), so an armed alarm expires during
that read. -/
def sSlowRead : St := st0 [] [true] [1, 1, 1, 5000]

end Py532

namespace Py532

/-! Basic facts about the primitives. -/

theorem passTime_alarm (s : St) : (passTime s).alarm = s.alarm := by
  cases hd : s.durs <;> simp [passTime, hd]

theorem passTime_sendLog (s : St) : (passTime s).sendLog = s.sendLog := by
  cases hd : s.durs <;> simp [passTime, hd]

theorem passTime_pollCalls (s : St) : (passTime s).pollCalls = s.pollCalls := by
  cases hd : s.durs <;> simp [passTime, hd]

theorem passTime_reads (s : St) : (passTime s).reads = s.reads := by
  cases hd : s.durs <;> simp [passTime, hd]

theorem fireDue_of_none {s : St} (h : s.alarm = none) : fireDue s = false := by
  simp [fireDue, h]

theorem snd_of_eq {α β : Type} {p : α × β} {a : α} {b : β} (h : p = (a, b)) :
    p.2 = b := by
  rw [h]

end Py532

namespace Py532

theorem passTime_writes (s : St) : (passTime s).writes = s.writes := by
  cases hd : s.durs <;> simp [passTime, hd]

theorem fst_of_eq {α β : Type} {p : α × β} {a : α} {b : β} (h : p = (a, b)) :
    p.1 = a := by
  rw [h]

theorem primSleep_sendLog (s : St) : (primSleep s).2.sendLog = s.sendLog := by
  by_cases hf : fireDue s <;> simp [primSleep, hf, passTime_sendLog]

theorem primSleep_pollCalls (s : St) : (primSleep s).2.pollCalls = s.pollCalls := by
  by_cases hf : fireDue s <;> simp [primSleep, hf, passTime_pollCalls]

theorem primRead_sendLog (s : St) : (primRead s).2.sendLog = s.sendLog := by
  by_cases hf : fireDue s
  · simp [primRead, hf]
  · rcases hr : s.reads with _ | ⟨ev, rest⟩
    · simp [primRead, hf, passTime_reads, hr, passTime_sendLog]
    · cases ev <;> simp [primRead, hf, passTime_reads, hr, passTime_sendLog]

theorem primRead_pollCalls (s : St) : (primRead s).2.pollCalls = s.pollCalls := by
  by_cases hf : fireDue s
  · simp [primRead, hf]
  · rcases hr : s.reads with _ | ⟨ev, rest⟩
    · simp [primRead, hf, passTime_reads, hr, passTime_pollCalls]
    · cases ev <;> simp [primRead, hf, passTime_reads, hr, passTime_pollCalls]

theorem primWrite_sendLog (s : St) : (primWrite s).2.sendLog = s.sendLog := by
  by_cases hf : fireDue s
  · simp [primWrite, hf]
  · rcases hw : s.writes with _ | ⟨b, rest⟩
    · simp [primWrite, hf, passTime_writes, hw, passTime_sendLog]
    · cases b <;> simp [primWrite, hf, passTime_writes, hw, passTime_sendLog]

theorem primWrite_pollCalls (s : St) : (primWrite s).2.pollCalls = s.pollCalls := by
  by_cases hf : fireDue s
  · simp [primWrite, hf]
  · rcases hw : s.writes with _ | ⟨b, rest⟩
    · simp [primWrite, hf, passTime_writes, hw, passTime_pollCalls]
    · cases b <;> simp [primWrite, hf, passTime_writes, hw, passTime_pollCalls]

theorem reset_i2c_sendLog (s : St) : (reset_i2c s).2.sendLog = s.sendLog := by
  by_cases hf : fireDue s <;> simp [reset_i2c, hf, passTime_sendLog]

theorem reset_i2c_pollCalls (s : St) : (reset_i2c s).2.pollCalls = s.pollCalls := by
  by_cases hf : fireDue s <;> simp [reset_i2c, hf, passTime_pollCalls]

theorem primSleep_err {s : St} {e : Exn} (h : (primSleep s).1 = Except.error e) :
    e = Exn.timeoutExc ∧ (primSleep s).2 = { s with alarm := none } := by
  by_cases hf : fireDue s <;> simp_all [primSleep, hf]

theorem reset_i2c_err {s : St} {e : Exn} (h : (reset_i2c s).1 = Except.error e) :
    e = Exn.timeoutExc ∧ (reset_i2c s).2 = { s with alarm := none } := by
  by_cases hf : fireDue s <;> simp_all [reset_i2c, hf]

theorem primRead_timeout {s : St}
    (h : (primRead s).1 = Except.error Exn.timeoutExc) :
    (primRead s).2 = { s with alarm := none } := by
  by_cases hf : fireDue s
  · simp [primRead, hf]
  · exfalso
    rcases hr : s.reads with _ | ⟨ev, rest⟩
    · simp [primRead, hf, passTime_reads, hr] at h
    · cases ev <;> simp [primRead, hf, passTime_reads, hr] at h

theorem primRead_alarm {s : St}
    (h : (primRead s).1 ≠ Except.error Exn.timeoutExc) :
    (primRead s).2.alarm = s.alarm := by
  by_cases hf : fireDue s
  · exact absurd (by simp [primRead, hf]) h
  · rcases hr : s.reads with _ | ⟨ev, rest⟩
    · simp [primRead, hf, passTime_reads, hr, passTime_alarm]
    · cases ev <;> simp [primRead, hf, passTime_reads, hr, passTime_alarm]

theorem primRead_not_attr (s : St) :
    (primRead s).1 ≠ Except.error Exn.attrError := by
  by_cases hf : fireDue s
  · simp [primRead, hf]
  · rcases hr : s.reads with _ | ⟨ev, rest⟩
    · simp [primRead, hf, passTime_reads, hr]
    · cases ev <;> simp [primRead, hf, passTime_reads, hr]

theorem primWrite_timeout {s : St}
    (h : (primWrite s).1 = Except.error Exn.timeoutExc) :
    (primWrite s).2 = { s with alarm := none } := by
  by_cases hf : fireDue s
  · simp [primWrite, hf]
  · exfalso
    rcases hw : s.writes with _ | ⟨b, rest⟩
    · simp [primWrite, hf, passTime_writes, hw] at h
    · cases b <;> simp [primWrite, hf, passTime_writes, hw] at h

theorem primWrite_alarm {s : St}
    (h : (primWrite s).1 ≠ Except.error Exn.timeoutExc) :
    (primWrite s).2.alarm = s.alarm := by
  by_cases hf : fireDue s
  · exact absurd (by simp [primWrite, hf]) h
  · rcases hw : s.writes with _ | ⟨b, rest⟩
    · simp [primWrite, hf, passTime_writes, hw, passTime_alarm]
    · cases b <;> simp [primWrite, hf, passTime_writes, hw, passTime_alarm]

theorem primSleep_of_none {s : St} (h : s.alarm = none) :
    primSleep s = (Except.ok (), passTime s) := by
  simp [primSleep, fireDue_of_none h]

theorem reset_i2c_of_none {s : St} (h : s.alarm = none) :
    reset_i2c s =
      (Except.ok (), { passTime s with nResets := (passTime s).nResets + 1 }) := by
  simp [reset_i2c, fireDue_of_none h]

theorem primWrite_of_none {s : St} (h : s.alarm = none) :
    (primWrite s).1 ≠ Except.error Exn.timeoutExc ∧ (primWrite s).2.alarm = none := by
  have hf : fireDue s = false := fireDue_of_none h
  refine ⟨?_, ?_⟩
  · rcases hw : s.writes with _ | ⟨b, rest⟩
    · simp [primWrite, hf, passTime_writes, hw]
    · cases b <;> simp [primWrite, hf, passTime_writes, hw]
  · rcases hw : s.writes with _ | ⟨b, rest⟩
    · simp [primWrite, hf, passTime_writes, hw, passTime_alarm, h]
    · cases b <;> simp [primWrite, hf, passTime_writes, hw, passTime_alarm, h]

theorem primRead_of_none {s : St} (h : s.alarm = none) :
    (primRead s).1 ≠ Except.error Exn.timeoutExc ∧ (primRead s).2.alarm = none := by
  have hf : fireDue s = false := fireDue_of_none h
  refine ⟨?_, ?_⟩
  · rcases hr : s.reads with _ | ⟨ev, rest⟩
    · simp [primRead, hf, passTime_reads, hr]
    · cases ev <;> simp [primRead, hf, passTime_reads, hr]
  · rcases hr : s.reads with _ | ⟨ev, rest⟩
    · simp [primRead, hf, passTime_reads, hr, passTime_alarm, h]
    · cases ev <;> simp [primRead, hf, passTime_reads, hr, passTime_alarm, h]

theorem passTime_alarm_none {s : St} (h : s.alarm = none) :
    (passTime s).alarm = none := by
  rw [passTime_alarm, h]

end Py532

namespace Py532

theorem sc_loop_ghost (f : Pn532Frame) :
    ∀ (fuel : Nat) (s : St),
      ((sc_loop f fuel s).st).sendLog = s.sendLog ∧
      ((sc_loop f fuel s).st).pollCalls = s.pollCalls := by
  intro fuel
  induction fuel with
  | zero => intro s; exact ⟨rfl, rfl⟩
  | succ n ih =>
    intro s
    simp only [sc_loop]
    split
    next u s1 h1 =>
      split
      next v s2 h2 =>
        have e1 := snd_of_eq h1
        have e2 := snd_of_eq h2
        rw [Res.st, ← e2, ← e1]
        exact ⟨by rw [primWrite_sendLog, primSleep_sendLog],
               by rw [primWrite_pollCalls, primSleep_pollCalls]⟩
      next e s2 h2 =>
        split
        next e3 s3 h3 =>
          have e1 := snd_of_eq h1
          have e2 := snd_of_eq h2
          have e3' := snd_of_eq h3
          rw [Res.st, ← e3', ← e2, ← e1]
          exact ⟨by rw [reset_i2c_sendLog, primWrite_sendLog, primSleep_sendLog],
                 by rw [reset_i2c_pollCalls, primWrite_pollCalls, primSleep_pollCalls]⟩
        next u3 s3 h3 =>
          split
          next e4 s4 h4 =>
            have e1 := snd_of_eq h1
            have e2 := snd_of_eq h2
            have e3' := snd_of_eq h3
            have e4' := snd_of_eq h4
            rw [Res.st, ← e4', ← e3', ← e2, ← e1]
            exact ⟨by rw [primSleep_sendLog, reset_i2c_sendLog, primWrite_sendLog,
                          primSleep_sendLog],
                   by rw [primSleep_pollCalls, reset_i2c_pollCalls, primWrite_pollCalls,
                          primSleep_pollCalls]⟩
          next u4 s4 h4 =>
            have e1 := snd_of_eq h1
            have e2 := snd_of_eq h2
            have e3' := snd_of_eq h3
            have e4' := snd_of_eq h4
            obtain ⟨g1, g2⟩ := ih s4
            refine ⟨?_, ?_⟩
            · rw [g1, ← e4', ← e3', ← e2, ← e1, primSleep_sendLog, reset_i2c_sendLog,
                primWrite_sendLog, primSleep_sendLog]
            · rw [g2, ← e4', ← e3', ← e2, ← e1, primSleep_pollCalls, reset_i2c_pollCalls,
                primWrite_pollCalls, primSleep_pollCalls]
    next e s1 h1 =>
      split
      next e2 s2 h2 =>
        have e1 := snd_of_eq h1
        have e2' := snd_of_eq h2
        rw [Res.st, ← e2', ← e1]
        exact ⟨by rw [reset_i2c_sendLog, primSleep_sendLog],
               by rw [reset_i2c_pollCalls, primSleep_pollCalls]⟩
      next u2 s2 h2 =>
        split
        next e3 s3 h3 =>
          have e1 := snd_of_eq h1
          have e2' := snd_of_eq h2
          have e3' := snd_of_eq h3
          rw [Res.st, ← e3', ← e2', ← e1]
          exact ⟨by rw [primSleep_sendLog, reset_i2c_sendLog, primSleep_sendLog],
                 by rw [primSleep_pollCalls, reset_i2c_pollCalls, primSleep_pollCalls]⟩
        next u3 s3 h3 =>
          have e1 := snd_of_eq h1
          have e2' := snd_of_eq h2
          have e3' := snd_of_eq h3
          obtain ⟨g1, g2⟩ := ih s3
          refine ⟨?_, ?_⟩
          · rw [g1, ← e3', ← e2', ← e1, primSleep_sendLog, reset_i2c_sendLog,
              primSleep_sendLog]
          · rw [g2, ← e3', ← e2', ← e1, primSleep_pollCalls, reset_i2c_pollCalls,
              primSleep_pollCalls]

end Py532

namespace Py532

theorem sc_loop_exn (f : Pn532Frame) :
    ∀ (fuel : Nat) (s : St) (e : Exn) (s' : St),
      sc_loop f fuel s = Res.exn e s' → e = Exn.timeoutExc ∧ s'.alarm = none := by
  intro fuel
  induction fuel with
  | zero => intro s e s' h; cases h
  | succ n ih =>
    intro s e s' h
    simp only [sc_loop] at h
    split at h
    next u s1 h1 =>
      split at h
      next v s2 h2 => cases h
      next e2 s2 h2 =>
        split at h
        next e3 s3 h3 =>
          injection h with he hs
          subst he; subst hs
          obtain ⟨ht, hst⟩ := reset_i2c_err (fst_of_eq h3)
          refine ⟨ht, ?_⟩
          rw [← snd_of_eq h3, hst]
        next u3 s3 h3 =>
          split at h
          next e4 s4 h4 =>
            injection h with he hs
            subst he; subst hs
            obtain ⟨ht, hst⟩ := primSleep_err (fst_of_eq h4)
            refine ⟨ht, ?_⟩
            rw [← snd_of_eq h4, hst]
          next u4 s4 h4 => exact ih s4 e s' h
    next e1 s1 h1 =>
      split at h
      next e2 s2 h2 =>
        injection h with he hs
        subst he; subst hs
        obtain ⟨ht, hst⟩ := reset_i2c_err (fst_of_eq h2)
        refine ⟨ht, ?_⟩
        rw [← snd_of_eq h2, hst]
      next u2 s2 h2 =>
        split at h
        next e3 s3 h3 =>
          injection h with he hs
          subst he; subst hs
          obtain ⟨ht, hst⟩ := primSleep_err (fst_of_eq h3)
          refine ⟨ht, ?_⟩
          rw [← snd_of_eq h3, hst]
        next u3 s3 h3 => exact ih s3 e s' h

theorem sc_loop_none (f : Pn532Frame) :
    ∀ (fuel : Nat) (s : St), s.alarm = none →
      ((sc_loop f fuel s).st).alarm = none ∧ (sc_loop f fuel s).exnOf = none := by
  intro fuel
  induction fuel with
  | zero => intro s h; exact ⟨h, rfl⟩
  | succ n ih =>
    intro s h
    have h1 : (passTime s).alarm = none := passTime_alarm_none h
    simp only [sc_loop, primSleep_of_none h]
    split
    next v s2 h2 =>
      have e2 := snd_of_eq h2
      constructor
      · rw [Res.st, ← e2]
        exact (primWrite_of_none h1).2
      · rfl
    next e2 s2 h2 =>
      have e2' := snd_of_eq h2
      have hs2 : s2.alarm = none := by rw [← e2']; exact (primWrite_of_none h1).2
      simp only [reset_i2c_of_none hs2]
      have hs3 : ({ passTime s2 with nResets := (passTime s2).nResets + 1 } : St).alarm
          = none := passTime_alarm_none hs2
      simp only [primSleep_of_none hs3]
      exact ih _ (passTime_alarm_none hs3)

end Py532

namespace Py532

theorem setAlarm_zero_alarm (s : St) : (setAlarm 0 s).alarm = none := by
  simp [setAlarm]

theorem setAlarm_sendLog (n : Nat) (s : St) : (setAlarm n s).sendLog = s.sendLog := by
  by_cases h : n = 0 <;> simp [setAlarm, h]

theorem setAlarm_pollCalls (n : Nat) (s : St) :
    (setAlarm n s).pollCalls = s.pollCalls := by
  by_cases h : n = 0 <;> simp [setAlarm, h]

theorem st_of_ok {α : Type} {r : Res α} {a : α} {s : St} (h : r = Res.ok a s) :
    r.st = s := by
  rw [h]; rfl

theorem st_of_exn {α : Type} {r : Res α} {e : Exn} {s : St} (h : r = Res.exn e s) :
    r.st = s := by
  rw [h]; rfl

theorem st_of_nofuel {α : Type} {r : Res α} {s : St} (h : r = Res.nofuel s) :
    r.st = s := by
  rw [h]; rfl

theorem rr_loop_ok_alarm :
    ∀ (fuel : Nat) (s : St) (v : RRVal) (s' : St),
      rr_loop fuel s = Res.ok v s' → s'.alarm = none := by
  intro fuel
  induction fuel with
  | zero => intro s v s' h; cases h
  | succ n ih =>
    intro s v s' h
    simp only [rr_loop] at h
    split at h
    next s1 h1 =>
      injection h with hv hs
      subst hs
      rw [← snd_of_eq h1, (primSleep_err (fst_of_eq h1)).2]
    next e s1 h1 _ =>
      exact ih s1 v s' h
    next u s1 h1 =>
      split at h
      next s2 h2 =>
        injection h with hv hs
        subst hs
        rw [← snd_of_eq h2, primRead_timeout (fst_of_eq h2)]
      next e s2 h2 _ =>
        exact ih s2 v s' h
      next dec s2 h2 =>
        split at h
        next => exact ih s2 v s' h
        next frame =>
          split at h
          next hdata =>
            split at h
            next s3 h3 => cases h
            next s3 h3 =>
              injection h with hv hs
              subst hs
              exact (sc_loop_exn _ _ _ _ _ h3).2
            next e3 s3 h3 _ =>
              exact ih s3 v s' h
            next b s3 h3 =>
              injection h with hv hs
              subst hs
              exact setAlarm_zero_alarm s3
          next hndata =>
            injection h with hv hs
            subst hs
            exact setAlarm_zero_alarm s2

end Py532

namespace Py532

theorem rr_loop_none_no_sentinel :
    ∀ (fuel : Nat) (s : St), s.alarm = none →
      (rr_loop fuel s).isNoTagRes = false := by
  intro fuel
  induction fuel with
  | zero => intro s h; rfl
  | succ n ih =>
    intro s h
    have h1 : (passTime s).alarm = none := passTime_alarm_none h
    simp only [rr_loop, primSleep_of_none h]
    split
    next s2 h2 =>
      exact absurd (fst_of_eq h2) (primRead_of_none h1).1
    next e s2 hne h2 =>
      apply ih
      rw [← snd_of_eq h2]
      exact (primRead_of_none h1).2
    next dec s2 h2 =>
      have hs2 : s2.alarm = none := by
        rw [← snd_of_eq h2]
        exact (primRead_of_none h1).2
      split
      next => exact ih s2 hs2
      next frame =>
        split
        next hdata =>
          have hs2' : ({ s2 with
              sendLog := s2.sendLog ++ [(Pn532Frame.mk FrameType.ack []).frame_type] } :
              St).alarm = none := hs2
          have hx := (sc_loop_none (Pn532Frame.mk FrameType.ack []) n _ hs2').2
          split
          next s3 h3 => rfl
          next s3 h3 =>
            unfold send_command at h3
            rw [h3] at hx
            simp [Res.exnOf] at hx
          next e3 s3 hne h3 =>
            unfold send_command at h3
            rw [h3] at hx
            simp [Res.exnOf] at hx
          next b s3 h3 => rfl
        next hndata => rfl

theorem rr_loop_sendLog :
    ∀ (fuel : Nat) (s : St) (f : Pn532Frame) (s' : St),
      rr_loop fuel s = Res.ok (RRVal.frame f) s' →
      s'.sendLog = s.sendLog ++
        (if f.frame_type = FrameType.data then [FrameType.ack] else []) := by
  intro fuel
  induction fuel with
  | zero => intro s f s' h; cases h
  | succ n ih =>
    intro s f s' h
    simp only [rr_loop] at h
    split at h
    next s1 h1 => cases h
    next e s1 hne h1 =>
      rw [ih s1 f s' h, ← snd_of_eq h1, primSleep_sendLog]
    next u s1 h1 =>
      split at h
      next s2 h2 => cases h
      next e s2 hne h2 =>
        rw [ih s2 f s' h, ← snd_of_eq h2, primRead_sendLog, ← snd_of_eq h1,
          primSleep_sendLog]
      next dec s2 h2 =>
        have hlog2 : s2.sendLog = s.sendLog := by
          rw [← snd_of_eq h2, primRead_sendLog, ← snd_of_eq h1, primSleep_sendLog]
        split at h
        next => rw [ih s2 f s' h, hlog2]
        next frame =>
          split at h
          next hdata =>
            split at h
            next s3 h3 => cases h
            next s3 h3 => cases h
            next e3 s3 hne h3 =>
              exfalso
              unfold send_command at h3
              exact hne (sc_loop_exn _ _ _ _ _ h3).1
            next b s3 h3 =>
              injection h with hv hs
              injection hv with hf
              subst hf; subst hs
              rw [setAlarm_sendLog]
              have : s3.sendLog = s2.sendLog ++ [FrameType.ack] := by
                rw [← st_of_ok h3]
                unfold send_command
                exact (sc_loop_ghost _ n _).1
              rw [this, hlog2]
              rw [Pn532Frame.get_frame_type] at hdata
              simp [hdata]
          next hndata =>
            injection h with hv hs
            injection hv with hf
            subst hf; subst hs
            rw [setAlarm_sendLog, hlog2]
            rw [Pn532Frame.get_frame_type] at hndata
            simp [hndata]

theorem rr_loop_pollCalls :
    ∀ (fuel : Nat) (s : St), ((rr_loop fuel s).st).pollCalls = s.pollCalls := by
  intro fuel
  induction fuel with
  | zero => intro s; rfl
  | succ n ih =>
    intro s
    simp only [rr_loop]
    split
    next s1 h1 =>
      rw [Res.st, ← snd_of_eq h1, primSleep_pollCalls]
    next e s1 hne h1 =>
      rw [ih s1, ← snd_of_eq h1, primSleep_pollCalls]
    next u s1 h1 =>
      have hp1 : s1.pollCalls = s.pollCalls := by
        rw [← snd_of_eq h1, primSleep_pollCalls]
      split
      next s2 h2 =>
        rw [Res.st, ← snd_of_eq h2, primRead_pollCalls, hp1]
      next e s2 hne h2 =>
        rw [ih s2, ← snd_of_eq h2, primRead_pollCalls, hp1]
      next dec s2 h2 =>
        have hp2 : s2.pollCalls = s.pollCalls := by
          rw [← snd_of_eq h2, primRead_pollCalls, hp1]
        split
        next => rw [ih s2, hp2]
        next frame =>
          split
          next hdata =>
            split
            next s3 h3 =>
              rw [Res.st, ← st_of_nofuel h3]
              unfold send_command
              rw [(sc_loop_ghost _ n _).2]
              exact hp2
            next s3 h3 =>
              rw [Res.st, ← st_of_exn h3]
              unfold send_command
              rw [(sc_loop_ghost _ n _).2]
              exact hp2
            next e3 s3 hne h3 =>
              rw [ih s3, ← st_of_exn h3]
              unfold send_command
              rw [(sc_loop_ghost _ n _).2]
              exact hp2
            next b s3 h3 =>
              rw [Res.st, setAlarm_pollCalls, ← st_of_ok h3]
              unfold send_command
              rw [(sc_loop_ghost _ n _).2]
              exact hp2
          next hndata =>
            rw [Res.st, setAlarm_pollCalls, hp2]

end Py532

namespace Py532

theorem passTime_nWrites (s : St) : (passTime s).nWrites = s.nWrites := by
  cases hd : s.durs <;> simp [passTime, hd]

theorem passTime_nResets (s : St) : (passTime s).nResets = s.nResets := by
  cases hd : s.durs <;> simp [passTime, hd]

theorem primWrite_cons {s : St} {b : Bool} {tail : List Bool}
    (h1 : s.alarm = none) (h3 : s.writes = b :: tail) :
    primWrite s = ((if b then Except.ok () else Except.error Exn.generic),
      { passTime s with nWrites := (passTime s).nWrites + 1, writes := tail }) := by
  simp [primWrite, fireDue_of_none h1, passTime_writes, h3]

theorem primWrite_cons_true {s : St} {tail : List Bool}
    (h1 : s.alarm = none) (h3 : s.writes = true :: tail) :
    primWrite s = (Except.ok (),
      { passTime s with nWrites := (passTime s).nWrites + 1, writes := tail }) := by
  rw [primWrite_cons h1 h3]
  simp

theorem primWrite_cons_false {s : St} {tail : List Bool}
    (h1 : s.alarm = none) (h3 : s.writes = false :: tail) :
    primWrite s = (Except.error Exn.generic,
      { passTime s with nWrites := (passTime s).nWrites + 1, writes := tail }) := by
  rw [primWrite_cons h1 h3]
  simp

theorem sc_win_step (f : Pn532Frame) (m : Nat) (s : St) {tail : List Bool}
    (h1 : s.alarm = none) (h3 : s.writes = true :: tail) :
    ∃ s', sc_loop f (m + 1) s = Res.ok true s' ∧ s'.writes = tail ∧
      s'.nResets = s.nResets ∧ s'.nWrites = s.nWrites + 1 := by
  have hpa : (passTime s).alarm = none := passTime_alarm_none h1
  have hpw : (passTime s).writes = true :: tail := by rw [passTime_writes, h3]
  refine ⟨{ passTime (passTime s) with
      nWrites := (passTime (passTime s)).nWrites + 1, writes := tail }, ?_, ?_, ?_, ?_⟩
  · simp only [sc_loop, primSleep_of_none h1, primWrite_cons_true hpa hpw]
  · rfl
  · simp [passTime_nResets]
  · simp [passTime_nWrites]

theorem sc_fail_step (f : Pn532Frame) (m : Nat) (s : St) {tail : List Bool}
    (h1 : s.alarm = none) (h3 : s.writes = false :: tail) :
    ∃ s', sc_loop f (m + 1) s = sc_loop f m s' ∧ s'.alarm = none ∧
      s'.writes = tail ∧ s'.nResets = s.nResets + 1 ∧ s'.nWrites = s.nWrites + 1 := by
  have hpa : (passTime s).alarm = none := passTime_alarm_none h1
  have hpw : (passTime s).writes = false :: tail := by rw [passTime_writes, h3]
  refine ⟨passTime { passTime ({ passTime (passTime s) with
      nWrites := (passTime (passTime s)).nWrites + 1, writes := tail } : St) with
        nResets := (passTime ({ passTime (passTime s) with
          nWrites := (passTime (passTime s)).nWrites + 1, writes := tail } : St)).nResets
            + 1 }, ?_, ?_, ?_, ?_, ?_⟩
  · simp only [sc_loop, primSleep_of_none h1, primWrite_cons_false hpa hpw]
    simp only [reset_i2c_of_none (show ({ passTime (passTime s) with
        nWrites := (passTime (passTime s)).nWrites + 1, writes := tail } : St).alarm
        = none from passTime_alarm_none hpa)]
    simp only [primSleep_of_none (show ({ passTime ({ passTime (passTime s) with
        nWrites := (passTime (passTime s)).nWrites + 1, writes := tail } : St) with
          nResets := (passTime ({ passTime (passTime s) with
            nWrites := (passTime (passTime s)).nWrites + 1,
            writes := tail } : St)).nResets + 1 } : St).alarm
        = none from passTime_alarm_none (passTime_alarm_none hpa))]
  · simp [passTime_alarm, h1]
  · simp [passTime_writes]
  · simp [passTime_nResets]
  · simp [passTime_nWrites]

theorem sc_loop_writes (f : Pn532Frame) :
    ∀ (n : Nat) (fuel : Nat) (s : St) (rest : List Bool), s.alarm = none →
      s.writes = List.replicate n false ++ true :: rest → n < fuel →
      (sc_loop f fuel s).val = some true ∧
      ((sc_loop f fuel s).st).nResets = s.nResets + n ∧
      ((sc_loop f fuel s).st).nWrites = s.nWrites + (n + 1) ∧
      ((sc_loop f fuel s).st).writes = rest := by
  intro n
  induction n with
  | zero =>
    intro fuel s rest h1 h3 h4
    obtain ⟨m, rfl⟩ : ∃ m, fuel = m + 1 := ⟨fuel - 1, by omega⟩
    simp only [List.replicate, List.nil_append] at h3
    obtain ⟨s', heq, hw, hr, hnw⟩ := sc_win_step f m s h1 h3
    rw [heq]
    exact ⟨rfl, by simpa [Res.st] using hr, by simpa [Res.st] using hnw,
      by simpa [Res.st] using hw⟩
  | succ k ih =>
    intro fuel s rest h1 h3 h4
    obtain ⟨m, rfl⟩ : ∃ m, fuel = m + 1 := ⟨fuel - 1, by omega⟩
    have hrep : s.writes = false :: (List.replicate k false ++ true :: rest) := by
      rw [h3, List.replicate_succ, List.cons_append]
    obtain ⟨s', heq, ha', hw', hr', hnw'⟩ := sc_fail_step f m s h1 hrep
    rw [heq]
    obtain ⟨v1, v2, v3, v4⟩ := ih m s' rest ha' hw' (by omega)
    refine ⟨v1, ?_, ?_, v4⟩
    · rw [v2, hr']; omega
    · rw [v3, hnw']; omega

theorem send_command_no_generic (f : Pn532Frame) (g : Nat) (s2 : St) :
    (send_command f g s2).surfacesFault = false := by
  unfold send_command
  cases hr : sc_loop f g
      { s2 with sendLog := s2.sendLog ++ [f.frame_type] } with
  | ok b s' => rfl
  | nofuel s' => rfl
  | exn e s' =>
    obtain ⟨ht, _⟩ := sc_loop_exn _ _ _ _ _ hr
    subst ht
    rfl

theorem rr_loop_no_exn : ∀ (fuel : Nat) (s : St), (rr_loop fuel s).exnOf = none := by
  intro fuel
  induction fuel with
  | zero => intro s; rfl
  | succ n ih =>
    intro s
    simp only [rr_loop]
    split
    next s1 h1 => rfl
    next e s1 hne h1 => exact ih s1
    next u s1 h1 =>
      split
      next s2 h2 => rfl
      next e s2 hne h2 => exact ih s2
      next dec s2 h2 =>
        split
        next => exact ih s2
        next frame =>
          split
          next hdata =>
            split
            next s3 h3 => rfl
            next s3 h3 => rfl
            next e3 s3 hne h3 => exact ih s3
            next b s3 h3 => rfl
          next hndata => rfl

end Py532

namespace Py532

/-!
Claim theorems.  Each theorem below settles one claim of the specification
review; the doc comment names the claim.
-/

/-- C1, counterexample: with a scripted bus whose first poll decodes a DATA
frame and whose second decodes an ACK, send_command_check_ack returns True,
never False.  The final send log is [data, ack]: the trailing ACK entry can
only come from read_response auto-acknowledging a successfully decoded DATA
frame, so the ACK-wait loop did observe a DATA frame first — and kept polling
instead of returning False, refuting the claim that a DATA frame observed
during the ACK wait yields False. -/
theorem scca_data_frame_yields_true_not_false :
    (send_command_check_ack dataF 3600 30 sDataThenAck).val = some true ∧
    ((send_command_check_ack dataF 3600 30 sDataThenAck).st).sendLog =
      [FrameType.data, FrameType.ack] ∧
    sDataThenAck.reads.head? = some (RdEv.rbytes (some dataF)) :=
  ⟨by decide, by decide, by decide⟩

/-- C1, amended: send_command_check_ack never returns False.  read_ack yields
True once some polled frame has type ACK, skips a DATA frame by polling
again, and on timeout either raises (AttributeError from the sentinel) or
returns the non-empty sentinel string, which is truthy, so the
`if self.read_ack(timeout)` branch in send_command_check_ack always takes the
True arm whenever read_ack returns at all. -/
theorem send_command_check_ack_never_false (f : Pn532Frame) (t fuel : Nat)
    (s : St) : (send_command_check_ack f t fuel s).returnsFalse = false := by
  unfold send_command_check_ack
  split
  next s1 h1 => rfl
  next e s1 h1 => rfl
  next b s1 h1 =>
    split
    next s2 h2 => rfl
    next e s2 h2 => rfl
    next r s2 h2 => cases r <;> rfl

/-- C2, counterexample: read_response with timeout 0 performs a bus read
(nReads = 1) and returns the decoded frame instead of returning the timeout
sentinel without any bus read: in the source, signal.alarm(0) DISARMS the
alarm rather than arming an already-expired one, so a 0 timeout means no
timeout at all. -/
theorem read_response_zero_timeout_reads_bus :
    (read_response 0 10 sAckOnly).val = some (RRVal.frame ackF) ∧
    ((read_response 0 10 sAckOnly).st).nReads = 1 :=
  ⟨by decide, by decide⟩

/-- C2, amended: read_response with timeout 0 never returns the timeout
sentinel, for every bus script and fuel: signal.alarm(0) disarms the alarm,
the TimeoutException can never be raised, and the loop keeps attempting bus
reads until a frame decodes (or forever). -/
theorem read_response_zero_timeout_never_times_out (fuel : Nat) (s : St) :
    (read_response 0 fuel s).isNoTagRes = false := by
  simp only [read_response]
  apply rr_loop_none_no_sentinel
  simp [setAlarm]

/-- C3 (code bug), failing run: read_response armed with timeout 2 decodes a
DATA frame and the alarm expires during the auto-ACK send_command.  The
TimeoutException raised there is caught by send_command's blanket
`except Exception` handler, which resets the bus (nResets = 1 — the write
script never faults, so only the swallowed timeout can have triggered the
reset) and retries; the poll then returns the DATA frame normally instead of
unwinding with the timeout sentinel.  The deadline signal is consumed
(alarm = none) without the poll ever observing it. -/
theorem read_response_expiry_during_autoack_is_swallowed :
    (read_response 2 20 sDataOnly).val = some (RRVal.frame dataF) ∧
    ((read_response 2 20 sDataOnly).st).nResets = 1 ∧
    ((read_response 2 20 sDataOnly).st).alarm = none ∧
    (read_response 2 20 sDataOnly).isNoTagRes = false :=
  ⟨by decide, by decide, by decide, by decide⟩

/-- C4: whenever read_response returns a decoded frame, its send log has
grown by exactly one ACK send_command invocation when the returned frame has
type DATA, and by nothing for any other frame type; the returned value is
the decoded frame itself. -/
theorem read_response_autoack_iff_data (t fuel : Nat) (s : St)
    (f : Pn532Frame) (s' : St)
    (h : read_response t fuel s = Res.ok (RRVal.frame f) s') :
    s'.sendLog = s.sendLog ++
      (if f.frame_type = FrameType.data then [FrameType.ack] else []) := by
  simp only [read_response] at h
  have hl := rr_loop_sendLog fuel _ f s' h
  rw [hl, setAlarm_sendLog]

/-- C4, witness: a poll that decodes a DATA frame issues exactly one ACK
send before returning it. -/
theorem read_response_autoack_iff_data_witness :
    read_response 3600 20 sDataOnly =
      Res.ok (RRVal.frame dataF) ((read_response 3600 20 sDataOnly).st) ∧
    ((read_response 3600 20 sDataOnly).st).sendLog = sDataOnly.sendLog ++
      (if dataF.frame_type = FrameType.data then [FrameType.ack] else []) :=
  ⟨by decide,
   read_response_autoack_iff_data 3600 20 sDataOnly dataF _ (by decide)⟩

/-- C5: with the alarm disarmed and a write script of n transport faults
followed by a success, send_command returns True having invoked exactly one
bus reset per failed write attempt (nResets grows by n), one bus write
attempt per loop iteration (nWrites grows by n + 1), consuming exactly those
script entries; it logs one invocation, and (last conjunct, unconditionally)
never surfaces a transport fault to its caller. -/
theorem send_command_resets_once_per_failed_write (f : Pn532Frame)
    (n fuel : Nat) (s : St) (rest : List Bool) (h1 : s.alarm = none)
    (h3 : s.writes = List.replicate n false ++ true :: rest) (h4 : n < fuel) :
    (send_command f fuel s).val = some true ∧
    ((send_command f fuel s).st).nResets = s.nResets + n ∧
    ((send_command f fuel s).st).nWrites = s.nWrites + (n + 1) ∧
    ((send_command f fuel s).st).writes = rest ∧
    ((send_command f fuel s).st).sendLog = s.sendLog ++ [f.frame_type] ∧
    (∀ (g : Nat) (s2 : St), (send_command f g s2).surfacesFault = false) := by
  unfold send_command
  obtain ⟨v1, v2, v3, v4⟩ := sc_loop_writes f n fuel
    { s with sendLog := s.sendLog ++ [f.frame_type] } rest h1 h3 h4
  refine ⟨v1, ?_, ?_, v4, ?_, ?_⟩
  · rw [v2]
  · rw [v3]
  · exact (sc_loop_ghost f fuel _).1
  · intro g s2
    exact send_command_no_generic f g s2

/-- C5, witness: two injected write faults then success — two resets, three
write attempts, True returned. -/
theorem send_command_resets_once_per_failed_write_witness :
    (send_command dataF 10 sFaultyWrites).val = some true ∧
    ((send_command dataF 10 sFaultyWrites).st).nResets =
      sFaultyWrites.nResets + 2 ∧
    ((send_command dataF 10 sFaultyWrites).st).nWrites =
      sFaultyWrites.nWrites + (2 + 1) ∧
    ((send_command dataF 10 sFaultyWrites).st).writes = [] ∧
    ((send_command dataF 10 sFaultyWrites).st).sendLog =
      sFaultyWrites.sendLog ++ [dataF.frame_type] ∧
    (send_command dataF 7 sAckOnly).surfacesFault = false := by
  obtain ⟨v1, v2, v3, v4, v5, v6⟩ :=
    send_command_resets_once_per_failed_write dataF 2 10 sFaultyWrites []
      (by decide) (by decide) (by decide)
  exact ⟨v1, v2, v3, v4, v5, v6 7 sAckOnly⟩

/-- C6 (code bug), failing run: read_ack(5) arms its own alarm and then, on
its very first iteration, invokes read_response while that alarm is still
pending — the ghost counter pollsWhileArmed, incremented at read_response
entry exactly when an alarm armed by an outer scope is pending, ends at 1.
read_response then re-arms the alarm to its own default 3600 s, clobbering
the caller's 5 s deadline, so nested arming does occur (and is harmful). -/
theorem read_ack_invokes_poll_with_pending_alarm :
    (read_ack 5 20 sAckOnly).val = some RAVal.ackTrue ∧
    ((read_ack 5 20 sAckOnly).st).pollsWhileArmed = 1 :=
  ⟨by decide, by decide⟩

/-- C7: read_response arms the alarm on entry (by definition, setAlarm
timeout before the loop), never lets an exception escape, and any normal
return — decoded frame (which executes signal.alarm(0)) or timeout sentinel
(where the fired signal is already consumed) — leaves no pending alarm. -/
theorem read_response_no_pending_alarm_after (t fuel : Nat) (s : St) :
    (read_response t fuel s).exnOf = none ∧
    (∀ (v : RRVal) (s' : St), read_response t fuel s = Res.ok v s' →
      s'.alarm = none) := by
  constructor
  · simp only [read_response]
    exact rr_loop_no_exn fuel _
  · intro v s' h
    simp only [read_response] at h
    exact rr_loop_ok_alarm fuel _ v s' h

/-- C7, witness: a concrete poll returning a frame leaves the alarm
disarmed. -/
theorem read_response_no_pending_alarm_after_witness :
    (read_response 5 20 sAckOnly).exnOf = none ∧
    ((read_response 5 20 sAckOnly).st).alarm = none :=
  ⟨(read_response_no_pending_alarm_after 5 20 sAckOnly).1,
   (read_response_no_pending_alarm_after 5 20 sAckOnly).2 (RRVal.frame ackF)
     ((read_response 5 20 sAckOnly).st) (by decide)⟩

/-- C8 (code bug), failing run: the governing timeout (read_ack's 5 s alarm,
re-armed to 3600 s by the inner read_response, which then expires during the
scripted 5000-unit bus read) is surfaced to send_command_check_ack's caller
as an uncaught AttributeError — read_response swallows the TimeoutException
into the sentinel string, and read_ack calls get_frame_type() on that
string — not as a distinguished no-response outcome. -/
theorem timeout_in_ack_wait_raises_attrError :
    (send_command_check_ack dataF 5 20 sSlowRead).exnOf =
      some Exn.attrError ∧
    ((send_command_check_ack dataF 5 20 sSlowRead).st).pollCalls = 1 :=
  ⟨by decide, by decide⟩

/-- C9: read_mifare is exactly send_command_check_ack of the fixed
list-passive-target frame followed, on return, by one more read_response
with the same caller-supplied timeout, whose result — frame or timeout
sentinel — is returned unchanged; the second phase performs exactly one
more read_response invocation (pollCalls grows by one). -/
theorem read_mifare_sends_then_polls_once_more (t fuel : Nat) (s : St)
    (b : Bool) (s1 : St)
    (h : send_command_check_ack mifareFrame t fuel s = Res.ok b s1) :
    read_mifare t fuel s = read_response t fuel s1 ∧
    ((read_response t fuel s1).st).pollCalls = s1.pollCalls + 1 := by
  constructor
  · simp only [read_mifare, h]
  · simp only [read_response]
    rw [rr_loop_pollCalls, setAlarm_pollCalls]

/-- C9, witness: an ACK then a DATA frame scripted — the handshake succeeds
and read_mifare returns whatever the second poll yields. -/
theorem read_mifare_sends_then_polls_once_more_witness :
    read_mifare 5 30 sAckThenData = read_response 5 30
      ((send_command_check_ack mifareFrame 5 30 sAckThenData).st) ∧
    ((read_response 5 30
      ((send_command_check_ack mifareFrame 5 30 sAckThenData).st)).st).pollCalls =
      ((send_command_check_ack mifareFrame 5 30 sAckThenData).st).pollCalls + 1 :=
  read_mifare_sends_then_polls_once_more 5 30 sAckThenData true _ (by decide)

/-- C10: when the inner read_response of read_ack's loop returns the timeout
sentinel string, the loop does not return False: get_frame_type on the
string raises AttributeError, which read_ack's except clause (catching only
TimeoutException) does not stop (first conjunct), and
send_command_check_ack propagates any exception of read_ack unchanged
(second conjunct) — so an inner-poll timeout can never surface as False. -/
theorem read_ack_on_sentinel_raises_and_propagates :
    (∀ (fuel : Nat) (s s1 s2 : St) (u : Unit),
      primSleep s = (Except.ok u, s1) →
      read_response DEFAULT_TIMEOUT fuel s1 = Res.ok RRVal.noTagStr s2 →
      ra_loop (fuel + 1) s = Res.exn Exn.attrError s2) ∧
    (∀ (f : Pn532Frame) (t fuel : Nat) (s sA : St) (e : Exn) (s' : St),
      send_command f fuel s = Res.ok true sA →
      read_ack t fuel sA = Res.exn e s' →
      send_command_check_ack f t fuel s = Res.exn e s') := by
  constructor
  · intro fuel s s1 s2 u hs hr
    simp only [ra_loop, hs, hr]
  · intro f t fuel s sA e s' h1 h2
    simp only [send_command_check_ack, h1, h2]

/-- C10, witness: the concrete slow-read run — the inner poll times out and
returns the sentinel; the loop iteration raises AttributeError, and
send_command_check_ack surfaces it. -/
theorem read_ack_on_sentinel_raises_and_propagates_witness :
    ra_loop 20 (setAlarm 5 ((send_command dataF 20 sSlowRead).st)) =
      Res.exn Exn.attrError ((read_response DEFAULT_TIMEOUT 19
        ((primSleep (setAlarm 5 ((send_command dataF 20 sSlowRead).st))).2)).st) ∧
    send_command_check_ack dataF 5 20 sSlowRead =
      Res.exn Exn.attrError
        ((read_ack 5 20 ((send_command dataF 20 sSlowRead).st)).st) :=
  ⟨read_ack_on_sentinel_raises_and_propagates.1 19
    (setAlarm 5 ((send_command dataF 20 sSlowRead).st))
    ((primSleep (setAlarm 5 ((send_command dataF 20 sSlowRead).st))).2)
    ((read_response DEFAULT_TIMEOUT 19
      ((primSleep (setAlarm 5 ((send_command dataF 20 sSlowRead).st))).2)).st)
    () (by rfl) (by decide),
   read_ack_on_sentinel_raises_and_propagates.2 dataF 5 20 sSlowRead
    ((send_command dataF 20 sSlowRead).st) Exn.attrError
    ((read_ack 5 20 ((send_command dataF 20 sSlowRead).st)).st)
    (by decide) (by decide)⟩

end Py532
